import Mathlib

/-!
Verification of the multimodal chat backend (FastAPI + Gemini).

Shallow embedding of the backend's core:
  * `llm_service.py`  — context builder (`build_message_history`) and turn
    dispatcher (`process_chat_message`);
  * `file_handler.py` — image upload validation / blob store
    (`save_uploaded_image`, `delete_session_images`);
  * `main.py`         — session orchestrator endpoints (`send_message`,
    `get_session_messages`, `delete_chat_session`).

Persistence is modelled as an explicit `DB` state threaded through the
endpoint functions.  The external filesystem, image decoder and model
provider are passed in as function-valued environments, so every claim is
quantified over their behaviour.  Machine-generated nondeterminism (uuid,
timestamps) is passed as explicit parameters.
-/

namespace Chat

/-- Persisted message row (`models.Message`): session foreign key, role
(`"user"` or `"assistant"`), text content, optional image path, creation
timestamp. The `DB.messages` list is kept in creation order. -/
structure Message where
  id : Nat
  session_id : Nat
  role : String
  content : String
  image_path : Option String
  created_at : Nat
deriving Repr, DecidableEq

/-- Persisted chat-session row (`models.ChatSession`). -/
structure ChatSession where
  id : Nat
  user_id : Nat
  title : String
  created_at : Nat
  updated_at : Nat
deriving Repr, DecidableEq

/-- A stored image blob. `file_handler.py` keys blobs by directory
`uploads/{user_id}/{session_id}/` plus a generated unique filename. -/
structure Blob where
  user_id : Nat
  session_id : Nat
  name : String
deriving Repr, DecidableEq

/-- The path string `uploads/{user_id}/{session_id}/{name}` that
`save_uploaded_image` returns and that is stored in `Message.image_path`. -/
def blobPath (b : Blob) : String :=
  "uploads/" ++ toString b.user_id ++ "/" ++ toString b.session_id ++ "/" ++ b.name

/-- Backend state: the relational store (sessions, messages) plus the blob
store on disk. `messages` are in creation order (matching the
`order_by(Message.created_at)` queries). -/
structure DB where
  sessions : List ChatSession
  messages : List Message
  blobs : List Blob
  nextId : Nat
deriving Repr, DecidableEq

/-- `HTTPException`: status code and detail string. -/
structure HttpError where
  status_code : Nat
  detail : String
deriving Repr, DecidableEq

/-! ### Context builder (`llm_service.build_message_history`) -/

/-- One content part of a model-facing turn: a decoded image (abstract
payload) or a text string. -/
inductive Part where
  | image (data : String)
  | text (s : String)
deriving Repr, DecidableEq

/-- Ephemeral model-facing turn: role plus ordered parts
(`{"role": role, "parts": parts}` in `llm_service.py`). -/
structure Turn where
  role : String
  parts : List Part
deriving Repr, DecidableEq

/-- Role mapping of `llm_service.py` line 49:
`role = "model" if msg.role == "assistant" else "user"`. -/
def roleMap (role : String) : String :=
  if role = "assistant" then "model" else "user"

/-- Best-effort image loading (`llm_service.py` lines 54-59 and 85-90):
`if path and os.path.exists(path): try: parts.append(load_image(path))
except: log and skip`.  `fsE` models `os.path.exists`; `ld` models
`load_image` (PIL decode), which may fail. -/
def imageParts (fsE : String → Bool) (ld : String → Except String String) :
    Option String → List Part
  | none => []
  | some p =>
    if fsE p then
      match ld p with
      | .ok img => [Part.image img]
      | .error _ => []
    else []

/-- The per-message turn of the loop body in `build_message_history`:
role-mapped role; optional image part followed by the text content, which
is always appended last. -/
def turnOf (fsE : String → Bool) (ld : String → Except String String)
    (msg : Message) : Turn :=
  { role := roleMap msg.role
    parts := imageParts fsE ld msg.image_path ++ [Part.text msg.content] }

/-- `llm_service.build_message_history` (lines 43-69): iterate over
`chat_history[:-1]` — all but the most recent message — building one turn
per message in order. -/
def build_message_history (fsE : String → Bool)
    (ld : String → Except String String) (chat_history : List Message) :
    List Turn :=
  chat_history.dropLast.map (turnOf fsE ld)

/-! ### Turn dispatcher (`llm_service.process_chat_message`) -/

/-- Modelled from the spec: the model-provider collaborator's response.
The provider library (`google.generativeai`) is external to this
repository; per the spec its response carries text fields, and "the reply
is the first text field of the provider's response; absence of text (e.g.,
safety block, empty completion) is itself a dispatch failure". -/
structure ProviderResponse where
  texts : List String
deriving Repr, DecidableEq

/-- Modelled from the spec: the provider's `response.text` accessor —
first text field, or a raised error when the response holds no text. -/
def responseText (r : ProviderResponse) : Except String String :=
  match r.texts with
  | [] => .error "no text in provider response"
  | t :: _ => .ok t

/-- `history = build_message_history(chat_history) if chat_history else []`
(`llm_service.py` line 79): a `None` or empty history yields no turns. -/
def historyArg (fsE : String → Bool) (ld : String → Except String String) :
    Option (List Message) → List Turn
  | none => []
  | some h => if h.isEmpty then [] else build_message_history fsE ld h

/-- The current turn's parts (`llm_service.py` lines 82-93): optional
best-effort image part, then the text, appended last. -/
def currentParts (fsE : String → Bool) (ld : String → Except String String)
    (image_path : Option String) (text : String) : List Part :=
  imageParts fsE ld image_path ++ [Part.text text]

/-- `llm_service.process_chat_message` (lines 71-105).  `provider` models
`model.start_chat(history=...).send_message(parts)`: one round trip given
the history turns and the current parts, returning a response or raising.
Any exception inside the body — provider failure or the `response.text`
accessor raising on a text-less response — is wrapped into
`"Error calling Gemini API: " ++ cause` (line 105). -/
def process_chat_message (fsE : String → Bool)
    (ld : String → Except String String)
    (provider : List Turn → List Part → Except String ProviderResponse)
    (text : String) (image_path : Option String)
    (chat_history : Option (List Message)) : Except String String :=
  let history := historyArg fsE ld chat_history
  let current_parts := currentParts fsE ld image_path text
  match provider history current_parts with
  | .error e => .error ("Error calling Gemini API: " ++ e)
  | .ok response =>
    match responseText response with
    | .ok t => .ok t
    | .error e => .error ("Error calling Gemini API: " ++ e)

/-! ### Blob store (`file_handler.py`) -/

/-- `UploadFile`: client-supplied filename, byte size, and content. -/
structure UploadFile where
  filename : String
  size : Nat
  content : String
deriving Repr, DecidableEq

/-- `file_handler.MAX_FILE_SIZE = 10 * 1024 * 1024` (10 MB). -/
def MAX_FILE_SIZE : Nat := 10 * 1024 * 1024

/-- `file_handler.ALLOWED_EXTENSIONS`. -/
def ALLOWED_EXTENSIONS : List String :=
  [".jpg", ".jpeg", ".png", ".gif", ".webp"]

/-- Index of the last `'.'` in a character list, if any. -/
def lastDotIdx : List Char → Option Nat
  | [] => none
  | c :: rest =>
    match lastDotIdx rest with
    | some i => some (i + 1)
    | none => if c = '.' then some 0 else none

/-- Split a character list at `'/'` separators. -/
def splitSlash : List Char → List (List Char)
  | [] => [[]]
  | c :: rest =>
    match splitSlash rest with
    | [] => [[]]
    | h :: t => if c = '/' then [] :: h :: t else (c :: h) :: t

/-- `pathlib.Path(filename).name`: the final (non-empty) path component. -/
def pathName (filename : String) : List Char :=
  ((splitSlash filename.toList).filter (fun c => !c.isEmpty)).getLastD []

/-- `pathlib.Path(filename).suffix`: the extension of the final path
component — `name[i:]` for the last dot index `i` when `0 < i < len-1`,
else the empty string. -/
def pathSuffix (filename : String) : String :=
  let cs := pathName filename
  match lastDotIdx cs with
  | some i => if 0 < i ∧ i + 1 < cs.length then String.mk (cs.drop i) else ""
  | none => ""

/-- Python `str.lower()` (character-wise lowering; extensions are ASCII). -/
def lowerStr (s : String) : String :=
  String.mk (s.toList.map Char.toLower)

/-- `file_handler.save_uploaded_image` (lines 15-61): validate the
lower-cased filename extension against the allow-list (400 on failure),
then the size against `MAX_FILE_SIZE` (400 on failure), then write the
blob under `uploads/{user_id}/{session_id}/` with a generated unique
filename and return the updated blob store and the stored path. -/
def save_uploaded_image (uuid : String) (file : UploadFile)
    (user_id session_id : Nat) (blobs : List Blob) :
    Except HttpError (List Blob × String) :=
  let file_extension := lowerStr (pathSuffix file.filename)
  if file_extension ∉ ALLOWED_EXTENSIONS then
    .error ⟨400, "Invalid file type. Allowed types: " ++
      String.intercalate ", " ALLOWED_EXTENSIONS⟩
  else if file.size > MAX_FILE_SIZE then
    .error ⟨400, "File too large. Maximum size: 10.0MB"⟩
  else
    let blob : Blob := ⟨user_id, session_id, uuid ++ file_extension⟩
    .ok (blobs ++ [blob], blobPath blob)

/-- `file_handler.delete_session_images` (lines 63-69): remove the whole
`uploads/{user_id}/{session_id}` subtree (`shutil.rmtree`). -/
def delete_session_images (blobs : List Blob) (user_id session_id : Nat) :
    List Blob :=
  blobs.filter (fun b => !(b.user_id == user_id && b.session_id == session_id))

/-! ### Session orchestrator (`main.py`) -/

/-- The ownership-plus-existence lookup shared by the message and session
endpooints (`main.py`):
`db.query(ChatSession).filter(id == session_id, user_id == current_user.id).first()`. -/
def findSession (db : DB) (session_id current_user : Nat) :
    Option ChatSession :=
  db.sessions.find? (fun s => s.id == session_id && s.user_id == current_user)

/-- `main.get_session_messages` (lines 139-159): 404 unless the session
exists and is owned by the caller; otherwise the session's messages in
creation order. -/
def get_session_messages (db : DB) (session_id current_user : Nat) :
    Except HttpError (List Message) :=
  match findSession db session_id current_user with
  | none => .error ⟨404, "Session not found"⟩
  | some _ => .ok (db.messages.filter (fun m => m.session_id == session_id))

/-- The image-upload step of `send_message` (`main.py` lines 179-182):
`image_path = None; if image: image_path = await save_uploaded_image(...)`. -/
def saveStep (uuid : String) (user_id session_id : Nat) (blobs : List Blob) :
    Option UploadFile → Except HttpError (List Blob × Option String)
  | none => .ok (blobs, none)
  | some file =>
    match save_uploaded_image uuid file user_id session_id blobs with
    | .error e => .error e
    | .ok (blobs1, p) => .ok (blobs1, some p)

/-- `main.send_message` (lines 161-224).  Returns the post-request state
together with the HTTP outcome: an `HTTPException` raised after a commit
leaves that commit in place, so the state is returned even on error.
Steps, in source order: ownership check (404); image validation/store
(400/…); persist the user message; load the session's full history; call
`process_chat_message` (wrapping any failure as a 500
`"LLM processing error: …"`); persist the assistant message and bump the
session's `updated_at`. -/
def send_message (fsE : String → Bool) (ld : String → Except String String)
    (provider : List Turn → List Part → Except String ProviderResponse)
    (uuid : String) (now : Nat) (db : DB) (session_id : Nat) (text : String)
    (image : Option UploadFile) (current_user : Nat) :
    DB × Except HttpError Message :=
  match findSession db session_id current_user with
  | none => (db, .error ⟨404, "Session not found"⟩)
  | some _ =>
    match saveStep uuid current_user session_id db.blobs image with
    | .error e => (db, .error e)
    | .ok (blobs1, image_path) =>
      let user_message : Message :=
        { id := db.nextId, session_id := session_id, role := "user",
          content := text, image_path := image_path, created_at := now }
      let db1 : DB :=
        { db with blobs := blobs1,
                  messages := db.messages ++ [user_message],
                  nextId := db.nextId + 1 }
      let previous_messages :=
        db1.messages.filter (fun m => m.session_id == session_id)
      match process_chat_message fsE ld provider text image_path
          (some previous_messages) with
      | .error e => (db1, .error ⟨500, "LLM processing error: " ++ e⟩)
      | .ok assistant_response =>
        let assistant_message : Message :=
          { id := db1.nextId, session_id := session_id, role := "assistant",
            content := assistant_response, image_path := none,
            created_at := now }
        ({ db1 with
            messages := db1.messages ++ [assistant_message],
            nextId := db1.nextId + 1,
            sessions := db1.sessions.map (fun s =>
              if s.id == session_id then { s with updated_at := now } else s) },
         .ok assistant_message)

/-- `main.delete_chat_session` (lines 226-244): 404 unless owned by the
caller; otherwise `db.delete(session)` and commit.  The deletion of the
session's `Message` rows is modelled from the spec: the relational cascade
lives in `models.py`, which is not part of the provided sources; the spec
states "Deleted only as a whole unit (cascading delete of Messages …)".
Note the endpoint touches only the relational store: `delete_session_images`
is never called, so `blobs` is returned unchanged. -/
def delete_chat_session (db : DB) (session_id current_user : Nat) :
    DB × Except HttpError String :=
  match findSession db session_id current_user with
  | none => (db, .error ⟨404, "Session not found"⟩)
  | some _ =>
    ({ db with
        sessions := db.sessions.filter (fun s => !(s.id == session_id)),
        messages := db.messages.filter (fun m => !(m.session_id == session_id)) },
     .ok "Session deleted successfully")

/-! ### Theorems -/

/-- C1: for every history passed to the context builder together with the
newest (already persisted) user message, the produced turns are exactly one
per prior message, in chronological order, the newest message contributing
no history turn; an empty or absent history yields an empty turn sequence;
and history `[u1, a1, u2]` with new input `u3` yields exactly the three
roles `user, model, user`. -/
theorem contextBuilder_history_turns (fsE : String → Bool)
    (ld : String → Except String String) (h : List Message) (m : Message) :
    build_message_history fsE ld (h ++ [m]) = h.map (turnOf fsE ld)
    ∧ (build_message_history fsE ld (h ++ [m])).length = h.length
    ∧ (build_message_history fsE ld (h ++ [m])).map Turn.role
        = h.map (fun x => roleMap x.role)
    ∧ build_message_history fsE ld [] = []
    ∧ historyArg fsE ld none = []
    ∧ (build_message_history fsE ld
        [⟨1, 1, "user", "u1", none, 1⟩, ⟨2, 1, "assistant", "a1", none, 2⟩,
         ⟨3, 1, "user", "u2", none, 3⟩, ⟨4, 1, "user", "u3", none, 4⟩]).map
          Turn.role = ["user", "model", "user"] := by
  have hdl : (h ++ [m]).dropLast = h := by
    simp [List.dropLast_concat]
  refine ⟨?_, ?_, ?_, rfl, rfl, rfl⟩
  · simp [build_message_history, hdl]
  · simp [build_message_history, hdl]
  · simp [build_message_history, hdl, turnOf]

/-- C8: a history turn's role is `"model"` exactly when the persisted role
is `"assistant"` and `"user"` when it is `"user"`; the mapping is the fixed
function `roleMap`, applied uniformly to every message of every call. -/
theorem roleMap_fixed_mapping (fsE : String → Bool)
    (ld : String → Except String String) (h : List Message) :
    roleMap "assistant" = "model" ∧ roleMap "user" = "user"
    ∧ (∀ r, roleMap r = "model" ↔ r = "assistant")
    ∧ (build_message_history fsE ld h).map Turn.role
        = h.dropLast.map (fun msg => roleMap msg.role) := by
  refine ⟨rfl, rfl, ?_, ?_⟩
  · intro r
    constructor
    · intro hr
      by_contra hne
      simp [roleMap, hne] at hr
    · intro hr
      simp [roleMap, hr]
  · simp [build_message_history, Function.comp_def, turnOf]

/-- C10: every persisted role other than `"assistant"` — including roles
that are neither `"user"` nor `"assistant"` — is tagged `"user"`, and the
builder produces a turn for every non-newest message regardless of role
(no role value makes it fail or skip). -/
theorem nonassistant_role_maps_to_user (fsE : String → Bool)
    (ld : String → Except String String) (h : List Message) (r : String)
    (hr : r ≠ "assistant") :
    roleMap r = "user"
    ∧ (build_message_history fsE ld h).length = h.length - 1
    ∧ (∀ msg : Message, msg.role = r → (turnOf fsE ld msg).role = "user") := by
  refine ⟨by simp [roleMap, hr], ?_, ?_⟩
  · simp [build_message_history]
  · intro msg hm
    simp [turnOf, roleMap, hm, hr]

/-- Witness for C10 at the out-of-vocabulary role `"system"`. -/
theorem nonassistant_role_maps_to_user_witness :
    roleMap "system" = "user"
    ∧ (turnOf (fun _ => false) (fun _ => .error "e")
        ⟨1, 1, "system", "s", none, 0⟩).role = "user" := by
  have h := nonassistant_role_maps_to_user (fun _ => false)
    (fun _ => .error "e") [] "system" (by decide)
  exact ⟨h.1, h.2.2 ⟨1, 1, "system", "s", none, 0⟩ rfl⟩

/-- C6: for history turns and the current turn alike, the text content is
always the final part; a missing image file or a failing load/decode
yields exactly the text-only part list without failing the call; a
successful load yields the image part followed by the text part. -/
theorem turn_parts_best_effort_image (fsE : String → Bool)
    (ld : String → Except String String) (msg : Message)
    (p i err text : String) :
    ((turnOf fsE ld msg).parts.getLast? = some (Part.text msg.content))
    ∧ ((currentParts fsE ld msg.image_path text).getLast?
        = some (Part.text text))
    ∧ (msg.image_path = some p → fsE p = false →
        (turnOf fsE ld msg).parts = [Part.text msg.content]
        ∧ currentParts fsE ld (some p) text = [Part.text text])
    ∧ (msg.image_path = some p → fsE p = true → ld p = .error err →
        (turnOf fsE ld msg).parts = [Part.text msg.content]
        ∧ currentParts fsE ld (some p) text = [Part.text text])
    ∧ (msg.image_path = some p → fsE p = true → ld p = .ok i →
        (turnOf fsE ld msg).parts = [Part.image i, Part.text msg.content]
        ∧ currentParts fsE ld (some p) text
            = [Part.image i, Part.text text]) := by
  refine ⟨?_, ?_, ?_, ?_, ?_⟩
  · simp [turnOf]
  · simp [currentParts]
  · intro hp hf
    constructor <;> simp [turnOf, currentParts, imageParts, hp, hf]
  · intro hp hf hl
    constructor <;> simp [turnOf, currentParts, imageParts, hp, hf, hl]
  · intro hp hf hl
    constructor <;> simp [turnOf, currentParts, imageParts, hp, hf, hl]

/-- Witness for C6: a message whose image file is missing yields a
text-only turn; one whose decode fails yields a text-only turn; one whose
image loads yields image-then-text. -/
theorem turn_parts_best_effort_image_witness :
    (turnOf (fun _ => false) (fun _ => .ok "I")
        ⟨1, 1, "user", "hi", some "gone.png", 0⟩).parts = [Part.text "hi"]
    ∧ (turnOf (fun _ => true) (fun _ => .error "corrupt")
        ⟨1, 1, "user", "hi", some "bad.png", 0⟩).parts = [Part.text "hi"]
    ∧ (turnOf (fun _ => true) (fun _ => .ok "I")
        ⟨1, 1, "user", "hi", some "ok.png", 0⟩).parts
        = [Part.image "I", Part.text "hi"] := by
  refine ⟨?_, ?_, ?_⟩
  · exact ((turn_parts_best_effort_image (fun _ => false) (fun _ => .ok "I")
      ⟨1, 1, "user", "hi", some "gone.png", 0⟩ "gone.png" "I" "e"
      "t").2.2.1 rfl rfl).1
  · exact ((turn_parts_best_effort_image (fun _ => true)
      (fun _ => .error "corrupt") ⟨1, 1, "user", "hi", some "bad.png", 0⟩
      "bad.png" "I" "corrupt" "t").2.2.2.1 rfl rfl rfl).1
  · exact ((turn_parts_best_effort_image (fun _ => true) (fun _ => .ok "I")
      ⟨1, 1, "user", "hi", some "ok.png", 0⟩ "ok.png" "I" "e"
      "t").2.2.2.2 rfl rfl rfl).1

/-- C9: the dispatcher's reply is the first text field of the provider's
response; a text-less response is a wrapped dispatch failure, not an empty
success; a provider exception is wrapped the same way; and every error the
dispatcher returns carries the classifying prefix with the underlying
cause — a raw failure never propagates unwrapped. -/
theorem dispatcher_reply_extraction (fsE : String → Bool)
    (ld : String → Except String String)
    (provider : List Turn → List Part → Except String ProviderResponse)
    (text : String) (ipath : Option String) (hist : Option (List Message))
    (resp : ProviderResponse) (t e : String) (rest : List String) :
    ((∀ h c, provider h c = .ok resp) → resp.texts = t :: rest →
        process_chat_message fsE ld provider text ipath hist = .ok t)
    ∧ ((∀ h c, provider h c = .ok resp) → resp.texts = [] →
        process_chat_message fsE ld provider text ipath hist
          = .error ("Error calling Gemini API: no text in provider response"))
    ∧ ((∀ h c, provider h c = .error e) →
        process_chat_message fsE ld provider text ipath hist
          = .error ("Error calling Gemini API: " ++ e))
    ∧ (∀ e2, process_chat_message fsE ld provider text ipath hist = .error e2 →
        ∃ cause, e2 = "Error calling Gemini API: " ++ cause) := by
  refine ⟨?_, ?_, ?_, ?_⟩
  · intro hp ht
    simp [process_chat_message, hp, responseText, ht]
  · intro hp ht
    simp [process_chat_message, hp, responseText, ht]
  · intro hp
    simp [process_chat_message, hp]
  · intro e2 hh
    simp only [process_chat_message] at hh
    cases hp : provider (historyArg fsE ld hist) (currentParts fsE ld ipath text) with
    | error e3 =>
      rw [hp] at hh
      simp at hh
      exact ⟨e3, hh.symm⟩
    | ok r =>
      rw [hp] at hh
      cases hr : responseText r with
      | error e3 =>
        simp [hr] at hh
        exact ⟨e3, hh.symm⟩
      | ok t2 =>
        simp [hr] at hh

/-- Witness for C9: a provider returning text `"hi"` yields reply `"hi"`;
an empty response and a raised `"quota"` error both yield the classified
wrapped failure. -/
theorem dispatcher_reply_extraction_witness :
    process_chat_message (fun _ => false) (fun _ => .error "e")
        (fun _ _ => .ok ⟨["hi"]⟩) "t" none none = .ok "hi"
    ∧ process_chat_message (fun _ => false) (fun _ => .error "e")
        (fun _ _ => .ok ⟨[]⟩) "t" none none
        = .error ("Error calling Gemini API: no text in provider response")
    ∧ process_chat_message (fun _ => false) (fun _ => .error "e")
        (fun _ _ => .error "quota") "t" none none
        = .error ("Error calling Gemini API: quota") := by
  refine ⟨?_, ?_, ?_⟩
  · exact (dispatcher_reply_extraction (fun _ => false) (fun _ => .error "e")
      (fun _ _ => .ok ⟨["hi"]⟩) "t" none none ⟨["hi"]⟩ "hi" "q" []).1
      (fun _ _ => rfl) rfl
  · exact (dispatcher_reply_extraction (fun _ => false) (fun _ => .error "e")
      (fun _ _ => .ok ⟨[]⟩) "t" none none ⟨[]⟩ "hi" "q" []).2.1
      (fun _ _ => rfl) rfl
  · exact (dispatcher_reply_extraction (fun _ => false) (fun _ => .error "e")
      (fun _ _ => .error "quota") "t" none none ⟨[]⟩ "hi" "quota" []).2.2.1
      (fun _ _ => rfl)

/-- C4: whenever no session with the requested id is owned by the caller —
whether the session does not exist at all or exists with a different owner
— `send_message`, list-messages and delete-session all fail with the one
fixed `404 "Session not found"` value, so the two cases are observationally
identical to a non-owner. -/
theorem ownership_collapsed_to_not_found (db : DB) (sid uid : Nat)
    (fsE : String → Bool) (ld : String → Except String String)
    (provider : List Turn → List Part → Except String ProviderResponse)
    (uuid : String) (now : Nat) (text : String) (image : Option UploadFile)
    (hno : ∀ s ∈ db.sessions, ¬(s.id = sid ∧ s.user_id = uid)) :
    send_message fsE ld provider uuid now db sid text image uid
      = (db, .error ⟨404, "Session not found"⟩)
    ∧ get_session_messages db sid uid = .error ⟨404, "Session not found"⟩
    ∧ delete_chat_session db sid uid
      = (db, .error ⟨404, "Session not found"⟩) := by
  have hf : findSession db sid uid = none := by
    rw [findSession, List.find?_eq_none]
    intro s hs
    simp only [Bool.and_eq_true, beq_iff_eq, not_and]
    intro h1 h2
    exact hno s hs ⟨h1, h2⟩
  refine ⟨?_, ?_, ?_⟩
  · simp [send_message, hf]
  · simp [get_session_messages, hf]
  · simp [delete_chat_session, hf]

/-- Witness for C4: a nonexistent session id (empty store) and an existing
session owned by user 1 queried as user 2 produce the identical 404. -/
theorem ownership_collapsed_to_not_found_witness :
    send_message (fun _ => false) (fun _ => .error "e")
        (fun _ _ => .ok ⟨["r"]⟩) "u" 0
        ⟨[], [], [], 1⟩ 1 "hi" none 2
      = (⟨[], [], [], 1⟩, .error ⟨404, "Session not found"⟩)
    ∧ send_message (fun _ => false) (fun _ => .error "e")
        (fun _ _ => .ok ⟨["r"]⟩) "u" 0
        ⟨[⟨1, 1, "t", 0, 0⟩], [], [], 1⟩ 1 "hi" none 2
      = (⟨[⟨1, 1, "t", 0, 0⟩], [], [], 1⟩, .error ⟨404, "Session not found"⟩)
    ∧ get_session_messages ⟨[⟨1, 1, "t", 0, 0⟩], [], [], 1⟩ 1 2
      = .error ⟨404, "Session not found"⟩
    ∧ delete_chat_session ⟨[⟨1, 1, "t", 0, 0⟩], [], [], 1⟩ 1 2
      = (⟨[⟨1, 1, "t", 0, 0⟩], [], [], 1⟩, .error ⟨404, "Session not found"⟩) := by
  have h1 := ownership_collapsed_to_not_found ⟨[], [], [], 1⟩ 1 2
    (fun _ => false) (fun _ => .error "e") (fun _ _ => .ok ⟨["r"]⟩) "u" 0 "hi"
    none (by intro s hs; simp at hs)
  have h2 := ownership_collapsed_to_not_found ⟨[⟨1, 1, "t", 0, 0⟩], [], [], 1⟩
    1 2 (fun _ => false) (fun _ => .error "e") (fun _ _ => .ok ⟨["r"]⟩) "u" 0
    "hi" none (by intro s hs; simp at hs; simp [hs])
  exact ⟨h1.1, h2.1, h2.2.1, h2.2.2⟩

/-- C2: when the model invocation fails, `send_message` returns the
classified 500 "LLM processing error" rather than a raw exception, the
state keeps the user message persisted before the call (role `"user"`,
the submitted text) as the only change to the message log, and no
assistant message is appended. -/
theorem provider_failure_preserves_user_message (fsE : String → Bool)
    (ld : String → Except String String)
    (provider : List Turn → List Part → Except String ProviderResponse)
    (uuid : String) (now : Nat) (db : DB) (sid uid : Nat) (text : String)
    (image : Option UploadFile) (s : ChatSession) (blobs1 : List Blob)
    (ipath : Option String) (e : String)
    (hs : findSession db sid uid = some s)
    (hsave : saveStep uuid uid sid db.blobs image = .ok (blobs1, ipath))
    (hp : ∀ h c, provider h c = Except.error e) :
    send_message fsE ld provider uuid now db sid text image uid
      = ({ db with
            blobs := blobs1
            messages := db.messages ++
              [{ id := db.nextId, session_id := sid, role := "user",
                 content := text, image_path := ipath, created_at := now }]
            nextId := db.nextId + 1 },
         .error ⟨500,
           "LLM processing error: " ++ ("Error calling Gemini API: " ++ e)⟩) := by
  simp [send_message, hs, hsave, process_chat_message, hp]

/-- Witness for C2: with one owned session and a provider raising
`"boom"`, the request returns the classified 500 and the state holds
exactly the persisted user message and no assistant message. -/
theorem provider_failure_preserves_user_message_witness :
    send_message (fun _ => false) (fun _ => .error "e")
        (fun _ _ => .error "boom") "u" 7
        ⟨[⟨1, 1, "t", 0, 0⟩], [], [], 1⟩ 1 "hello" none 1
      = (⟨[⟨1, 1, "t", 0, 0⟩], [⟨1, 1, "user", "hello", none, 7⟩], [], 2⟩,
         .error ⟨500,
           "LLM processing error: " ++ ("Error calling Gemini API: " ++ "boom")⟩) := by
  have h := provider_failure_preserves_user_message (fun _ => false)
    (fun _ => .error "e") (fun _ _ => .error "boom") "u" 7
    ⟨[⟨1, 1, "t", 0, 0⟩], [], [], 1⟩ 1 1 "hello" none ⟨1, 1, "t", 0, 0⟩ []
    none "boom" rfl rfl (fun _ _ => rfl)
  simpa using h

/-- C7: on a successful `send_message`, exactly one assistant message is
appended — role `"assistant"`, content equal to the dispatcher's reply
(the first text of the provider's response), no image reference — placed
directly after the persisted user message in creation order, and the
session's `updated_at` is set to the request time. -/
theorem success_appends_assistant (fsE : String → Bool)
    (ld : String → Except String String)
    (provider : List Turn → List Part → Except String ProviderResponse)
    (uuid : String) (now : Nat) (db : DB) (sid uid : Nat) (text : String)
    (image : Option UploadFile) (s : ChatSession) (blobs1 : List Blob)
    (ipath : Option String) (resp : ProviderResponse) (t : String)
    (rest : List String)
    (hs : findSession db sid uid = some s)
    (hsave : saveStep uuid uid sid db.blobs image = .ok (blobs1, ipath))
    (hp : ∀ h c, provider h c = Except.ok resp)
    (ht : resp.texts = t :: rest) :
    send_message fsE ld provider uuid now db sid text image uid
      = ({ db with
            blobs := blobs1
            messages := db.messages ++
              [{ id := db.nextId, session_id := sid, role := "user",
                 content := text, image_path := ipath, created_at := now },
               { id := db.nextId + 1, session_id := sid, role := "assistant",
                 content := t, image_path := none, created_at := now }]
            nextId := db.nextId + 2
            sessions := db.sessions.map (fun s2 =>
              if s2.id == sid then { s2 with updated_at := now } else s2) },
         .ok { id := db.nextId + 1, session_id := sid, role := "assistant",
               content := t, image_path := none, created_at := now })
    ∧ ∀ s2 ∈ (send_message fsE ld provider uuid now db sid text image uid).1.sessions,
        s2.id = sid → s2.updated_at = now := by
  have hmain : send_message fsE ld provider uuid now db sid text image uid
      = ({ db with
            blobs := blobs1
            messages := db.messages ++
              [{ id := db.nextId, session_id := sid, role := "user",
                 content := text, image_path := ipath, created_at := now },
               { id := db.nextId + 1, session_id := sid, role := "assistant",
                 content := t, image_path := none, created_at := now }]
            nextId := db.nextId + 2
            sessions := db.sessions.map (fun s2 =>
              if s2.id == sid then { s2 with updated_at := now } else s2) },
         .ok { id := db.nextId + 1, session_id := sid, role := "assistant",
               content := t, image_path := none, created_at := now }) := by
    simp [send_message, hs, hsave, process_chat_message, hp, responseText, ht]
  refine ⟨hmain, ?_⟩
  intro s2 hmem hid
  rw [hmain] at hmem
  simp only [List.mem_map] at hmem
  obtain ⟨s0, _, rfl⟩ := hmem
  by_cases h0 : s0.id = sid
  · simp [h0]
  · simp [h0] at hid

/-- Witness for C7: a provider replying `"reply"` yields the assistant
message appended after the user message and the session timestamp set. -/
theorem success_appends_assistant_witness :
    send_message (fun _ => false) (fun _ => .error "e")
        (fun _ _ => .ok ⟨["reply"]⟩) "u" 7
        ⟨[⟨1, 1, "t", 0, 0⟩], [], [], 1⟩ 1 "hello" none 1
      = (⟨[⟨1, 1, "t", 0, 7⟩],
          [⟨1, 1, "user", "hello", none, 7⟩,
           ⟨2, 1, "assistant", "reply", none, 7⟩], [], 3⟩,
         .ok ⟨2, 1, "assistant", "reply", none, 7⟩) := by
  have h := (success_appends_assistant (fun _ => false) (fun _ => .error "e")
    (fun _ _ => .ok ⟨["reply"]⟩) "u" 7 ⟨[⟨1, 1, "t", 0, 0⟩], [], [], 1⟩ 1 1
    "hello" none ⟨1, 1, "t", 0, 0⟩ [] none ⟨["reply"]⟩ "reply" [] rfl rfl
    (fun _ _ => rfl) rfl).1
  simpa using h

/-- C3: a `send_message` request to an owned session carrying an image
whose extension is outside the allow-list or whose size exceeds
`MAX_FILE_SIZE` fails with a 400 validation error, leaves the whole state
— message log and blob store — unchanged, and a subsequent list-messages
shows no new entry. -/
theorem invalid_image_rejected_before_persist (fsE : String → Bool)
    (ld : String → Except String String)
    (provider : List Turn → List Part → Except String ProviderResponse)
    (uuid : String) (now : Nat) (db : DB) (sid uid : Nat) (text : String)
    (f : UploadFile) (s : ChatSession)
    (hs : findSession db sid uid = some s)
    (hbad : lowerStr (pathSuffix f.filename) ∉ ALLOWED_EXTENSIONS
        ∨ f.size > MAX_FILE_SIZE) :
    (send_message fsE ld provider uuid now db sid text (some f) uid).1 = db
    ∧ (∃ d, (send_message fsE ld provider uuid now db sid text (some f) uid).2
        = .error ⟨400, d⟩)
    ∧ get_session_messages
        (send_message fsE ld provider uuid now db sid text (some f) uid).1
        sid uid
      = get_session_messages db sid uid := by
  by_cases hext : lowerStr (pathSuffix f.filename) ∈ ALLOWED_EXTENSIONS
  · have hsize : f.size > MAX_FILE_SIZE := hbad.resolve_left (by simp [hext])
    refine ⟨?_, ⟨"File too large. Maximum size: 10.0MB", ?_⟩, ?_⟩ <;>
      simp [send_message, hs, saveStep, save_uploaded_image, hext, hsize,
        Nat.not_lt_of_lt]
  · refine ⟨?_, ⟨"Invalid file type. Allowed types: " ++
        String.intercalate ", " ALLOWED_EXTENSIONS, ?_⟩, ?_⟩ <;>
      simp [send_message, hs, saveStep, save_uploaded_image, hext]

/-- Witness for C3: an `.exe` upload and an oversized `.png` upload are
both rejected with a 400 and leave the store untouched. -/
theorem invalid_image_rejected_before_persist_witness :
    ((send_message (fun _ => false) (fun _ => .error "e")
        (fun _ _ => .ok ⟨["r"]⟩) "u" 7 ⟨[⟨1, 1, "t", 0, 0⟩], [], [], 1⟩ 1
        "hi" (some ⟨"evil.exe", 5, "c"⟩) 1).1 = ⟨[⟨1, 1, "t", 0, 0⟩], [], [], 1⟩
      ∧ (∃ d, (send_message (fun _ => false) (fun _ => .error "e")
          (fun _ _ => .ok ⟨["r"]⟩) "u" 7 ⟨[⟨1, 1, "t", 0, 0⟩], [], [], 1⟩ 1
          "hi" (some ⟨"evil.exe", 5, "c"⟩) 1).2 = .error ⟨400, d⟩))
    ∧ ((send_message (fun _ => false) (fun _ => .error "e")
        (fun _ _ => .ok ⟨["r"]⟩) "u" 7 ⟨[⟨1, 1, "t", 0, 0⟩], [], [], 1⟩ 1
        "hi" (some ⟨"big.png", 10485761, "c"⟩) 1).1
          = ⟨[⟨1, 1, "t", 0, 0⟩], [], [], 1⟩
      ∧ (∃ d, (send_message (fun _ => false) (fun _ => .error "e")
          (fun _ _ => .ok ⟨["r"]⟩) "u" 7 ⟨[⟨1, 1, "t", 0, 0⟩], [], [], 1⟩ 1
          "hi" (some ⟨"big.png", 10485761, "c"⟩) 1).2 = .error ⟨400, d⟩)) := by
  have h1 := invalid_image_rejected_before_persist (fun _ => false)
    (fun _ => .error "e") (fun _ _ => .ok ⟨["r"]⟩) "u" 7
    ⟨[⟨1, 1, "t", 0, 0⟩], [], [], 1⟩ 1 1 "hi" ⟨"evil.exe", 5, "c"⟩
    ⟨1, 1, "t", 0, 0⟩ rfl (Or.inl (by decide))
  have h2 := invalid_image_rejected_before_persist (fun _ => false)
    (fun _ => .error "e") (fun _ _ => .ok ⟨["r"]⟩) "u" 7
    ⟨[⟨1, 1, "t", 0, 0⟩], [], [], 1⟩ 1 1 "hi" ⟨"big.png", 10485761, "c"⟩
    ⟨1, 1, "t", 0, 0⟩ rfl (Or.inr (by decide))
  exact ⟨⟨h1.1, h1.2.1⟩, ⟨h2.1, h2.2.1⟩⟩

/-- A concrete state for exercising session deletion: user 1 owns session
1, which holds one user message referencing one stored blob. -/
def dbDelete : DB :=
  { sessions := [⟨1, 1, "t", 0, 0⟩]
    messages := [⟨1, 1, "user", "hi", some (blobPath ⟨1, 1, "img.png"⟩), 0⟩]
    blobs := [⟨1, 1, "img.png"⟩]
    nextId := 2 }

/-- C5: deleting an owned session removes the session record and all its
messages, and a subsequent list-messages on that id returns not-found —
but the endpoint never invokes `delete_session_images`, so the blob stored
under the session's `uploads/1/1` subtree survives the deletion (had the
endpoint called `delete_session_images`, the subtree would be empty). -/
theorem deleteSession_leaves_blobs :
    (delete_chat_session dbDelete 1 1).1.sessions = []
    ∧ (delete_chat_session dbDelete 1 1).1.messages = []
    ∧ (delete_chat_session dbDelete 1 1).2 = .ok "Session deleted successfully"
    ∧ get_session_messages (delete_chat_session dbDelete 1 1).1 1 1
        = .error ⟨404, "Session not found"⟩
    ∧ (delete_chat_session dbDelete 1 1).1.blobs = [⟨1, 1, "img.png"⟩]
    ∧ delete_session_images dbDelete.blobs 1 1 = [] := by
  refine ⟨rfl, rfl, rfl, rfl, rfl, rfl⟩

end Chat
